import Mathlib

set_option maxRecDepth 8000

/-! Verification of gutenberg's live-development subsystem
(`src/cmd/watch.rs` and `src/cmd/serve.rs`), against a shallow embedding.
Paths are modelled as Rust's `std::path` component view: a list of
components plus an absoluteness flag; strings are lists of characters. -/

namespace Gutenberg

/-- A filesystem path, as Rust's `Path` component view exposes it:
whether the path is absolute, and its normal components in order. -/
structure RPath where
  absolute : Bool
  components : List (List Char)
deriving DecidableEq

/-- Rust `Path::file_name`: the last component, unless it is `..`. -/
def RPath.fileName (p : RPath) : Option (List Char) :=
  match p.components.getLast? with
  | some c => if c = ['.', '.'] then none else some c
  | none => none

/-- Split a character list at its last dot: `some (before, after)` when a
dot occurs, `none` otherwise. -/
def splitLastDot : List Char → Option (List Char × List Char)
  | [] => none
  | c :: cs =>
    match splitLastDot cs with
    | some (b, a) => some (c :: b, a)
    | none => if c = '.' then some ([], cs) else none

/-- Rust's split of a file name into the parts before and after the final
dot (`rsplit_file_at_dot`): `..` is whole, a name whose only dot leads it
is whole, a dotless name sits entirely in the second slot. -/
def rsplitFileAtDot (f : List Char) : Option (List Char) × Option (List Char) :=
  if f = ['.', '.'] then (some f, none)
  else
    match splitLastDot f with
    | none => (none, some f)
    | some (b, a) => if b = [] then (some f, none) else (some b, some a)

/-- Rust `Path::extension`: the part after the final dot of the file name,
when the part before it is nonempty. -/
def RPath.extension (p : RPath) : Option (List Char) :=
  match p.fileName with
  | none => none
  | some f =>
    match rsplitFileAtDot f with
    | (some _, a) => a
    | (none, _) => none

/-- Rust `Path::file_stem`: the part of the file name before the final
dot, or the whole file name when there is no usable dot. -/
def RPath.fileStem (p : RPath) : Option (List Char) :=
  match p.fileName with
  | none => none
  | some f =>
    match rsplitFileAtDot f with
    | (some b, _) => some b
    | (none, a) => a

/-- `is_temp_file` from `src/cmd/watch.rs`: whether the changed path is a
temp file created by an editor or the OS. -/
def is_temp_file (path : RPath) : Bool :=
  match path.extension with
  | some ex =>
    if ex = "swp".toList then true
    else if ex = "swx".toList then true
    else if ex = "tmp".toList then true
    else if ex = ".DS_STORE".toList then true
    else if "jb_old___".toList.isSuffixOf ex then true
    else if "jb_tmp___".toList.isSuffixOf ex then true
    else if "jb_bak___".toList.isSuffixOf ex then true
    else if ['~'].isSuffixOf ex then true
    else
      match path.fileStem with
      | some filename => ['#'].isPrefixOf filename
      | none => false
  | none => true

/-- The change classification tags from `src/cmd/watch.rs`. -/
inductive ChangeKind
  | Content
  | Templates
  | StaticFiles
  | Sass
  | Config
deriving DecidableEq

/-- Rust `Path::strip_prefix`: drop `pwd`'s components from the front of
`path` when they are a componentwise prefix (an empty relative `pwd`
strips nothing), `none` otherwise. -/
def stripRoot (pwd path : RPath) : Option RPath :=
  if pwd.absolute = false ∧ pwd.components = [] then some path
  else if pwd.absolute = path.absolute ∧ pwd.components.isPrefixOf path.components then
    some ⟨false, path.components.drop pwd.components.length⟩
  else none

/-- Rust `PathBuf::push`: an absolute `q` replaces the buffer, a relative
`q` is appended. -/
def RPath.push (p q : RPath) : RPath :=
  if q.absolute then q else ⟨p.absolute, p.components ++ q.components⟩

/-- Rust `Path::starts_with` against a one-component absolute pattern such
as `/templates`. -/
def startsWithRootDir (p : RPath) (c : List Char) : Bool :=
  p.absolute && [c].isPrefixOf p.components

/-- `detect_change_kind` from `src/cmd/watch.rs`: strip the project root
if present, re-root under `/`, then test the ordered prefixes. `none`
models the `unreachable!` panic on a path outside every watched root. -/
def detect_change_kind (pwd path : RPath) : Option (ChangeKind × RPath) :=
  let rel := (stripRoot pwd path).getD path
  let canon := RPath.push ⟨true, []⟩ rel
  if startsWithRootDir canon "templates".toList then some (ChangeKind.Templates, canon)
  else if startsWithRootDir canon "content".toList then some (ChangeKind.Content, canon)
  else if startsWithRootDir canon "static".toList then some (ChangeKind.StaticFiles, canon)
  else if startsWithRootDir canon "sass".toList then some (ChangeKind.Sass, canon)
  else if canon = ⟨true, ["config.toml".toList]⟩ then some (ChangeKind.Config, canon)
  else none

/-- Rust `Path::to_string_lossy` on a path of this model: components
joined by `/`, led by `/` when absolute. -/
def RPath.render (p : RPath) : List Char :=
  (if p.absolute then ['/'] else []) ++ List.intercalate ['/'] p.components

/-- Parse a literal path string of the source (such as `content/`) into
the component view: absolute iff it starts with `/`, components the
nonempty `/`-separated pieces. -/
def parsePath (t : List Char) : RPath :=
  ⟨t.head? = some '/', (t.splitOn '/').filter (fun c => c ≠ [])⟩

/-- Substring containment, Rust `str::contains` with a literal pattern. -/
def containsSub (l sub : List Char) : Bool :=
  match l with
  | [] => sub.isPrefixOf ([] : List Char)
  | _ :: rest => sub.isPrefixOf l || containsSub rest sub

/-- The Site collaborator's state, as far as this subsystem observes it
(spec section 6): its root, config file, base url, output path, the
`compile_sass` config flag, and how far construction got. -/
structure Site where
  base_path : RPath
  config_file : List Char
  base_url : List Char
  output_path : List Char
  compile_sass : Bool
  loaded : Bool
  built : Bool
deriving DecidableEq

/-- Outcomes of the external fallible collaborator calls one rebuild cycle
can make; they are parameters of the embedding because their code lives
outside this subsystem (the `site`, `rebuild` and `utils` crates). -/
structure CollabResults where
  newRes : Except (List Char) Unit
  loadRes : Except (List Char) Unit
  buildRes : Except (List Char) Unit
  contentRes : Except (List Char) Unit
  templateRes : Except (List Char) Unit
  copyRes : Except (List Char) Unit
  sassRes : Except (List Char) Unit
  configCompileSass : Bool

/-- `create_new_site` from `src/cmd/watch.rs`: construct a Site rooted at
the current directory, set its base url and output path, load it, then
build it; any failing step aborts the construction with that error. -/
def create_new_site (ops : CollabResults) (cwd : RPath)
    (output_dir base_url config_file : List Char) : Except (List Char) Site :=
  match ops.newRes with
  | .error e => .error e
  | .ok _ =>
    let site : Site :=
      { base_path := cwd, config_file := config_file, base_url := []
        output_path := [], compile_sass := ops.configCompileSass
        loaded := false, built := false }
    let site := { site with base_url := base_url }
    let site := { site with output_path := output_dir }
    match ops.loadRes with
    | .error e => .error e
    | .ok _ =>
      let site := { site with loaded := true }
      match ops.buildRes with
      | .error e => .error e
      | .ok _ => .ok { site with built := true }

/-- The livereload `reload` command sent on the broadcaster channel: the
fields of the JSON literal in `rebuild_done_handling`. -/
structure ReloadCommand where
  path : List Char
  originalPath : List Char
  liveCSS : Bool
  liveImg : Bool
  protocol : List (List Char)
deriving DecidableEq

/-- The reload payload `rebuild_done_handling` formats for a given
`reload_path`. -/
def reloadPayload (reload_path : List Char) : ReloadCommand :=
  { path := reload_path, originalPath := []
    liveCSS := true, liveImg := true
    protocol := ["http://livereload.com/protocols/official-7".toList] }

/-- `rebuild_done_handling` from `src/cmd/watch.rs`: on success send one
reload message when a broadcaster is present, on failure report the error
chain to the console. Result: (messages sent, console error reports). -/
def rebuild_done_handling (broadcaster : Bool) (res : Except (List Char) Unit)
    (reload_path : List Char) : List ReloadCommand × List (List Char) :=
  match res with
  | .ok _ => (if broadcaster then [reloadPayload reload_path] else [], [])
  | .error e => ([], ["Failed to build the site: ".toList ++ e])

/-- What one dispatched change does: continue the loop with the messages
it sent, the errors it reported and the (possibly replaced) site, or
abort the whole process (`unwrap` panic or `unreachable!`), the site
still holding its value from before the cycle. -/
inductive StepOutcome
  | cont (sent : List ReloadCommand) (reported : List (List Char)) (site : Site)
  | panic (site : Site)
deriving DecidableEq

/-- The dispatch on `detect_change_kind` inside the watch loop
(`src/cmd/watch.rs`, the arm handling Create/Write/Remove/Rename events
after the temp-file and directory filter). `pathIsFile` is the
`path.is_file()` probe. -/
def dispatchChange (cwd : RPath) (output_dir base_url config_file : List Char)
    (broadcaster : Bool) (site : Site) (ops : CollabResults)
    (path : RPath) (pathIsFile : Bool) : StepOutcome :=
  match detect_change_kind cwd path with
  | none => .panic site
  | some (ChangeKind.Content, _) =>
    let r := rebuild_done_handling broadcaster ops.contentRes "/x.js".toList
    .cont r.1 r.2 site
  | some (ChangeKind.Templates, _) =>
    let r := rebuild_done_handling broadcaster ops.templateRes "/x.js".toList
    .cont r.1 r.2 site
  | some (ChangeKind.StaticFiles, p) =>
    if pathIsFile then
      let r := rebuild_done_handling broadcaster ops.copyRes p.render
      .cont r.1 r.2 site
    else .cont [] [] site
  | some (ChangeKind.Sass, p) =>
    let r := rebuild_done_handling broadcaster ops.sassRes p.render
    .cont r.1 r.2 site
  | some (ChangeKind.Config, _) =>
    match create_new_site ops cwd output_dir base_url config_file with
    | .ok s => .cont [] [] s
    | .error _ => .panic site

/-- One filesystem watch registration the `watch` startup attempts:
its target and whether a registration failure is fatal (`chain_err` with
`?`) or silently tolerated (`let _ =`). -/
structure WatchReg where
  target : List Char
  fatalOnError : Bool
deriving DecidableEq

/-- The watch registrations `watch` attempts at startup, in source order
(`src/cmd/watch.rs`): content/, templates/ and the config file fatally,
static/ only when it exists on disk, sass/ always and non-fatally. -/
def watchRegistrations (config_file : List Char) (staticExists : Bool) : List WatchReg :=
  [⟨"content/".toList, true⟩, ⟨"templates/".toList, true⟩, ⟨config_file, true⟩] ++
  (if staticExists then [⟨"static/".toList, true⟩] else []) ++
  [⟨"sass/".toList, false⟩]

/-- The startup summary list `watchers` printed by `watch`
(`src/cmd/watch.rs`): static appears iff it exists, sass appears iff the
site config's `compile_sass` flag is set. -/
def watchersDisplay (staticExists compile_sass : Bool) : List (List Char) :=
  ["content".toList, "templates".toList, "config.toml".toList] ++
  (if staticExists then ["static".toList] else []) ++
  (if compile_sass then ["sass".toList] else [])

/-- The whole startup watch wiring: the registrations attempted and the
printed summary, as functions of the config file argument, the existence
of `static/` and the `compile_sass` flag. -/
def watchStartup (config_file : List Char) (staticExists compile_sass : Bool) :
    List WatchReg × List (List Char) :=
  (watchRegistrations config_file staticExists, watchersDisplay staticExists compile_sass)

/-- The livereload handshake reply frame from `src/cmd/serve.rs`. -/
structure HelloReply where
  command : List Char
  protocols : List (List Char)
  serverName : List Char
deriving DecidableEq

/-- The fixed handshake reply the websocket handler sends. -/
def helloReply : HelloReply :=
  { command := "hello".toList
    protocols := ["http://livereload.com/protocols/official-7".toList]
    serverName := "Gutenberg".toList }

/-- The websocket message handler closure in `serve`
(`src/cmd/serve.rs`): on a frame whose text contains the quoted token
`"hello"`, send the fixed handshake reply and return the send's result;
otherwise send nothing and return Ok. `sendRes` is the outcome of the
external `output.send`. Result: (frames sent, handler return value). -/
def wsHandler (sendRes : Except (List Char) Unit) (msgText : List Char) :
    List HelloReply × Except (List Char) Unit :=
  if containsSub msgText ("\"hello\"".toList) then ([helloReply], sendRes)
  else ([], .ok ())

/-- An HTTP response as the 404 middleware observes it: status, body,
content type, and the remaining headers it does not touch. -/
structure HttpResponse where
  status : Nat
  body : List Char
  contentType : Option (List Char)
  otherHeaders : List (List Char × List Char)
deriving DecidableEq

/-- `NotFoundHandler::response` from `src/cmd/serve.rs`: on a 404
response, replace the body with the rendered 404 template's content and
force the content type to text/html; `template` is that file's content,
`none` when the file cannot be opened (the `?` then propagates the io
error). Any other response passes through untouched. -/
def notFoundHandlerResponse (template : Option (List Char)) (resp : HttpResponse) :
    Except (List Char) HttpResponse :=
  if resp.status = 404 then
    match template with
    | none => .error "io error".toList
    | some buf => .ok { resp with body := buf, contentType := some "text/html".toList }
  else .ok resp

/-- The classification table as the spec states it (sections 4.1 and 8):
the ChangeKind selected by the root-relative form of the changed path —
templates, content, static and sass by path prefix, config.toml by exact
match, not prefix. Written from the spec's words, to be compared with the
source's `detect_change_kind`. -/
def specKindOfRel (rel : RPath) : Option ChangeKind :=
  if ["templates".toList].isPrefixOf rel.components then some ChangeKind.Templates
  else if ["content".toList].isPrefixOf rel.components then some ChangeKind.Content
  else if ["static".toList].isPrefixOf rel.components then some ChangeKind.StaticFiles
  else if ["sass".toList].isPrefixOf rel.components then some ChangeKind.Sass
  else if rel.components = ["config.toml".toList] then some ChangeKind.Config
  else none

/-- A sample project root for concrete instantiations. -/
def rootA : RPath := ⟨true, ["home".toList, "site".toList]⟩

/-- The config file under `rootA`, as an absolute changed path. -/
def configPathA : RPath :=
  ⟨true, ["home".toList, "site".toList, "config.toml".toList]⟩

/-- A content file under `rootA`, as an absolute changed path. -/
def contentPathA : RPath :=
  ⟨true, ["home".toList, "site".toList, "content".toList, "hello.md".toList]⟩

/-- A sample site value, as built by a first successful build. -/
def siteA : Site :=
  { base_path := rootA, config_file := "config.toml".toList
    base_url := "127.0.0.1:1111".toList, output_path := "public".toList
    compile_sass := false, loaded := true, built := true }

/-- Collaborator outcomes where every external call succeeds. -/
def opsOk : CollabResults :=
  { newRes := .ok (), loadRes := .ok (), buildRes := .ok ()
    contentRes := .ok (), templateRes := .ok (), copyRes := .ok ()
    sassRes := .ok (), configCompileSass := true }

/-- Collaborator outcomes where `Site::load` fails. -/
def opsLoadFail : CollabResults :=
  { opsOk with loadRes := .error "invalid config".toList }

/-- Collaborator outcomes where every rebuild entry point fails. -/
def opsAllFail : CollabResults :=
  { newRes := .error "e".toList, loadRes := .error "e".toList
    buildRes := .error "e".toList, contentRes := .error "e".toList
    templateRes := .error "e".toList, copyRes := .error "e".toList
    sassRes := .error "e".toList, configCompileSass := true }

/-- Sanity: the repository's own unit test `can_detect_kind_of_changes`,
content row. -/
theorem sanity_detect_content :
    detect_change_kind ⟨true, ["home".toList, "vincent".toList, "site".toList]⟩
      ⟨true, ["home".toList, "vincent".toList, "site".toList,
              "content".toList, "posts".toList, "hello.md".toList]⟩ =
    some (ChangeKind.Content, ⟨true, ["content".toList, "posts".toList, "hello.md".toList]⟩) := by
  decide

/-- Sanity: the repository's own unit test `can_recognize_temp_files`,
first and last rows. -/
theorem sanity_temp_files :
    is_temp_file ⟨false, ["hello.swp".toList]⟩ = true ∧
    is_temp_file ⟨false, ["#hello.html".toList]⟩ = true ∧
    is_temp_file ⟨false, [".DS_STORE".toList]⟩ = true ∧
    is_temp_file ⟨false, ["hello.html".toList]⟩ = false := by
  decide

/-- Re-rooting under `/` keeps the components and forces absoluteness. -/
theorem push_root (rel : RPath) :
    RPath.push ⟨true, []⟩ rel = ⟨true, rel.components⟩ := by
  obtain ⟨a, c⟩ := rel
  cases a <;> simp [RPath.push]

/-- Classification sees the same thing whether the changed path is given
absolute under the root or already root-relative. -/
theorem detect_change_kind_push (R P : RPath) (hR : R.absolute = true)
    (hP : P.absolute = false) :
    detect_change_kind R (R.push P) = detect_change_kind R P := by
  obtain ⟨Ra, Rc⟩ := R
  obtain ⟨Pa, Pc⟩ := P
  simp only at hR hP
  subst hR
  subst hP
  have h1 : stripRoot ⟨true, Rc⟩ (RPath.push ⟨true, Rc⟩ ⟨false, Pc⟩) =
      some ⟨false, Pc⟩ := by
    simp [RPath.push, stripRoot, List.isPrefixOf_iff_prefix, List.drop_left]
  have h2 : stripRoot ⟨true, Rc⟩ ⟨false, Pc⟩ = none := by
    simp [stripRoot]
  simp only [detect_change_kind, h1, h2, Option.getD_some, Option.getD_none]

/-- `detect_change_kind` equals the spec's classification table applied to
the root-relative form, paired with the `/`-rooted canonical path. -/
theorem detect_change_kind_eq_table (pwd path : RPath) :
    detect_change_kind pwd path =
      (specKindOfRel ((stripRoot pwd path).getD path)).map
        (fun k => (k, ⟨true, ((stripRoot pwd path).getD path).components⟩)) := by
  simp only [detect_change_kind]
  generalize (stripRoot pwd path).getD path = rel
  obtain ⟨a, comps⟩ := rel
  rw [show RPath.push ⟨true, []⟩ ⟨a, comps⟩ = ⟨true, comps⟩ from by
    cases a <;> simp [RPath.push]]
  simp only [specKindOfRel, startsWithRootDir, Bool.true_and, RPath.mk.injEq, true_and]
  split_ifs <;> rfl

/-- C1: for every project root and changed path under a watched root,
`detect_change_kind` returns exactly the ChangeKind the spec's table
selects from the root-relative form (templates/content/static/sass by
prefix, config.toml by exact match), paired with the canonical `/`-rooted
relative path. -/
theorem detect_change_kind_follows_table (R P : RPath) (k : ChangeKind)
    (h : specKindOfRel ((stripRoot R P).getD P) = some k) :
    detect_change_kind R P =
      some (k, ⟨true, ((stripRoot R P).getD P).components⟩) := by
  rw [detect_change_kind_eq_table, h]
  rfl

theorem detect_change_kind_follows_table_witness :
    detect_change_kind ⟨true, ["home".toList, "site".toList]⟩
        ⟨true, ["home".toList, "site".toList, "content".toList,
                "posts".toList, "hello.md".toList]⟩ =
      some (ChangeKind.Content,
        ⟨true, ((stripRoot ⟨true, ["home".toList, "site".toList]⟩
            ⟨true, ["home".toList, "site".toList, "content".toList,
                    "posts".toList, "hello.md".toList]⟩).getD
          ⟨true, ["home".toList, "site".toList, "content".toList,
                  "posts".toList, "hello.md".toList]⟩).components⟩) :=
  detect_change_kind_follows_table
    ⟨true, ["home".toList, "site".toList]⟩
    ⟨true, ["home".toList, "site".toList, "content".toList,
            "posts".toList, "hello.md".toList]⟩
    ChangeKind.Content (by decide)

/-- C8: classification is invariant under passing the changed path
absolute under the root or already root-relative:
`detect_change_kind R (R.push P) = detect_change_kind R P`. -/
theorem detect_change_kind_abs_rel_invariant (R P : RPath)
    (hR : R.absolute = true) (hP : P.absolute = false) :
    detect_change_kind R (R.push P) = detect_change_kind R P :=
  detect_change_kind_push R P hR hP

theorem detect_change_kind_abs_rel_invariant_witness :
    detect_change_kind ⟨true, ["home".toList, "johan".toList, "site".toList]⟩
        (RPath.push ⟨true, ["home".toList, "johan".toList, "site".toList]⟩
          ⟨false, ["templates".toList, "hello.html".toList]⟩) =
      detect_change_kind ⟨true, ["home".toList, "johan".toList, "site".toList]⟩
        ⟨false, ["templates".toList, "hello.html".toList]⟩ :=
  detect_change_kind_abs_rel_invariant
    ⟨true, ["home".toList, "johan".toList, "site".toList]⟩
    ⟨false, ["templates".toList, "hello.html".toList]⟩ (by decide) (by decide)

/-- When a character list has no last-dot split, it holds no dot. -/
theorem dot_not_mem_of_splitLastDot_none :
    ∀ {l : List Char}, splitLastDot l = none → '.' ∉ l := by
  intro l
  induction l with
  | nil => intro _ h; cases h
  | cons c cs ih =>
    intro h
    simp only [splitLastDot] at h
    cases hcs : splitLastDot cs with
    | some q => rw [hcs] at h; cases h
    | none =>
      rw [hcs] at h
      by_cases hc : c = '.'
      · simp [hc] at h
      · simp only [List.mem_cons, not_or]
        exact ⟨fun he => hc he.symm, ih hcs⟩

/-- The part after the last dot holds no dot. -/
theorem dot_not_mem_snd_of_splitLastDot :
    ∀ {l b a : List Char}, splitLastDot l = some (b, a) → '.' ∉ a := by
  intro l
  induction l with
  | nil => intro b a h; cases h
  | cons c cs ih =>
    intro b a h
    simp only [splitLastDot] at h
    cases hcs : splitLastDot cs with
    | some q =>
      obtain ⟨b', a'⟩ := q
      rw [hcs] at h
      obtain ⟨hb, ha⟩ := Prod.mk.injEq .. ▸ Option.some.injEq .. ▸ h
      exact ha ▸ ih hcs
    | none =>
      rw [hcs] at h
      by_cases hc : c = '.'
      · rw [if_pos hc] at h
        obtain ⟨hb, ha⟩ := Prod.mk.injEq .. ▸ Option.some.injEq .. ▸ h
        exact ha ▸ dot_not_mem_of_splitLastDot_none hcs
      · rw [if_neg hc] at h
        cases h

/-- A computed extension holds no dot (so it can never equal
`.DS_STORE`: that match arm of `is_temp_file` is dead code). -/
theorem extension_dot_not_mem {p : RPath} {ex : List Char}
    (h : p.extension = some ex) : '.' ∉ ex := by
  cases hfn : p.fileName with
  | none => simp only [RPath.extension, hfn] at h; cases h
  | some f =>
    simp only [RPath.extension, hfn] at h
    by_cases hdd : f = ['.', '.']
    · simp [rsplitFileAtDot, hdd] at h
    · cases hsp : splitLastDot f with
      | none => simp [rsplitFileAtDot, hdd, hsp] at h
      | some q =>
        obtain ⟨b, a⟩ := q
        by_cases hb : b = []
        · simp [rsplitFileAtDot, hdd, hsp, hb] at h
        · simp [rsplitFileAtDot, hdd, hsp, hb] at h
          exact h ▸ dot_not_mem_snd_of_splitLastDot hsp

/-- C2: `is_temp_file` is true exactly when the extension is swp, swx or
tmp, or the extension ends in jb_old___, jb_tmp___, jb_bak___ or `~`, or
the file stem starts with `#`, or the path has no extension at all; false
for every other path. -/
theorem is_temp_file_characterization (p : RPath) :
    is_temp_file p = true ↔
      ((∃ ex, p.extension = some ex ∧
          (ex = "swp".toList ∨ ex = "swx".toList ∨ ex = "tmp".toList ∨
           "jb_old___".toList.isSuffixOf ex = true ∨
           "jb_tmp___".toList.isSuffixOf ex = true ∨
           "jb_bak___".toList.isSuffixOf ex = true ∨
           ['~'].isSuffixOf ex = true)) ∨
       (∃ st, p.fileStem = some st ∧ ['#'].isPrefixOf st = true) ∨
       p.extension = none) := by
  cases hext : p.extension with
  | none =>
    constructor
    · intro _
      exact Or.inr (Or.inr rfl)
    · intro _
      simp only [is_temp_file, hext]
  | some ex =>
    have hds : ex ≠ ".DS_STORE".toList := by
      intro hc
      have hmem := extension_dot_not_mem hext
      rw [hc] at hmem
      exact hmem (by decide)
    constructor
    · intro h
      simp only [is_temp_file, hext] at h
      split_ifs at h with h1 h2 h3 h4 h5 h6 h7
      · exact Or.inl ⟨ex, rfl, Or.inl h1⟩
      · exact Or.inl ⟨ex, rfl, Or.inr (Or.inl h2)⟩
      · exact Or.inl ⟨ex, rfl, Or.inr (Or.inr (Or.inl h3))⟩
      · exact Or.inl ⟨ex, rfl, Or.inr (Or.inr (Or.inr (Or.inl h4)))⟩
      · exact Or.inl ⟨ex, rfl, Or.inr (Or.inr (Or.inr (Or.inr (Or.inl h5))))⟩
      · exact Or.inl ⟨ex, rfl,
          Or.inr (Or.inr (Or.inr (Or.inr (Or.inr (Or.inl h6)))))⟩
      · exact Or.inl ⟨ex, rfl,
          Or.inr (Or.inr (Or.inr (Or.inr (Or.inr (Or.inr h7)))))⟩
      · cases hst : p.fileStem with
        | none => rw [hst] at h; cases h
        | some st =>
          rw [hst] at h
          exact Or.inr (Or.inl ⟨st, rfl, h⟩)
    · intro h
      simp only [is_temp_file, hext]
      rcases h with ⟨ex', hex', hcase⟩ | ⟨st, hst, hpre⟩ | hnone
      · injection hex' with he
        subst he
        split_ifs with h1 h2 h3 h4 h5 h6 h7
        any_goals rfl
        rcases hcase with hc | hc | hc | hc | hc | hc | hc
        · exact absurd hc h1
        · exact absurd hc h2
        · exact absurd hc h3
        · exact absurd hc h4
        · exact absurd hc h5
        · exact absurd hc h6
        · exact absurd hc h7
      · split_ifs with h1 h2 h3 h4 h5 h6 h7
        any_goals rfl
        rw [hst]
        exact hpre
      · cases hnone

/-- `create_new_site` succeeds exactly when Site::new, load and build all
succeed, and then yields the fully initialized site rooted at `cwd`. -/
theorem create_new_site_ok_iff (ops : CollabResults) (cwd : RPath)
    (od bu cf : List Char) (s : Site) :
    create_new_site ops cwd od bu cf = .ok s ↔
      (ops.newRes = .ok () ∧ ops.loadRes = .ok () ∧ ops.buildRes = .ok () ∧
       s = { base_path := cwd, config_file := cf, base_url := bu, output_path := od
             compile_sass := ops.configCompileSass, loaded := true, built := true }) := by
  rcases hn : ops.newRes with e | u
  · simp [create_new_site, hn]
  · cases u
    rcases hl : ops.loadRes with e | u
    · simp [create_new_site, hn, hl]
    · cases u
      rcases hb : ops.buildRes with e | u
      · simp [create_new_site, hn, hl, hb]
      · cases u
        simp [create_new_site, hn, hl, hb, eq_comm]

/-- C3: with a broadcaster present, a successful Content or Templates
rebuild sends exactly one reload message whose path is the forced-refresh
sentinel `/x.js`, a successful StaticFiles rebuild sends exactly one
reload message whose path is the changed file's canonical root-relative
path, and a successful Config rebuild replaces the Site and sends no
reload message. -/
theorem dispatch_reload_messages (cwd : RPath) (od bu cf : List Char)
    (site : Site) (ops : CollabResults) (path : RPath) (isFile : Bool) (p : RPath) :
    ((detect_change_kind cwd path = some (ChangeKind.Content, p) →
        ops.contentRes = .ok () →
        dispatchChange cwd od bu cf true site ops path isFile =
          .cont [reloadPayload "/x.js".toList] [] site) ∧
     (detect_change_kind cwd path = some (ChangeKind.Templates, p) →
        ops.templateRes = .ok () →
        dispatchChange cwd od bu cf true site ops path isFile =
          .cont [reloadPayload "/x.js".toList] [] site) ∧
     (detect_change_kind cwd path = some (ChangeKind.StaticFiles, p) →
        isFile = true → ops.copyRes = .ok () →
        dispatchChange cwd od bu cf true site ops path isFile =
          .cont [reloadPayload p.render] [] site) ∧
     (∀ s, detect_change_kind cwd path = some (ChangeKind.Config, p) →
        create_new_site ops cwd od bu cf = .ok s →
        dispatchChange cwd od bu cf true site ops path isFile =
          .cont [] [] s)) := by
  refine ⟨?_, ?_, ?_, ?_⟩
  · intro hk hres
    simp [dispatchChange, hk, hres, rebuild_done_handling]
  · intro hk hres
    simp [dispatchChange, hk, hres, rebuild_done_handling]
  · intro hk hfile hres
    simp [dispatchChange, hk, hfile, hres, rebuild_done_handling]
  · intro s hk hres
    simp [dispatchChange, hk, hres]

/-- C4 counterexample: a failed Config rebuild goes through `unwrap` and
panics, terminating the watch process instead of continuing the loop —
the site still holds its old value at the abort. -/
theorem config_rebuild_failure_terminates :
    dispatchChange rootA "public".toList "127.0.0.1:1111".toList
        "config.toml".toList true siteA opsLoadFail configPathA false =
      StepOutcome.panic siteA := by
  rfl

/-- C4 (amended): for Content, Templates, StaticFiles and Sass changes, a
failed rebuild is reported to the console, no reload message is sent for
that cycle and the loop continues; a failed Config rebuild, however,
panics (terminating the process) with the site untouched. -/
theorem rebuild_failure_handling (cwd : RPath) (od bu cf : List Char) (b : Bool)
    (site : Site) (ops : CollabResults) (path : RPath) (isFile : Bool)
    (p : RPath) (e : List Char) :
    ((detect_change_kind cwd path = some (ChangeKind.Content, p) →
        ops.contentRes = .error e →
        dispatchChange cwd od bu cf b site ops path isFile =
          .cont [] ["Failed to build the site: ".toList ++ e] site) ∧
     (detect_change_kind cwd path = some (ChangeKind.Templates, p) →
        ops.templateRes = .error e →
        dispatchChange cwd od bu cf b site ops path isFile =
          .cont [] ["Failed to build the site: ".toList ++ e] site) ∧
     (detect_change_kind cwd path = some (ChangeKind.StaticFiles, p) →
        isFile = true → ops.copyRes = .error e →
        dispatchChange cwd od bu cf b site ops path isFile =
          .cont [] ["Failed to build the site: ".toList ++ e] site) ∧
     (detect_change_kind cwd path = some (ChangeKind.Sass, p) →
        ops.sassRes = .error e →
        dispatchChange cwd od bu cf b site ops path isFile =
          .cont [] ["Failed to build the site: ".toList ++ e] site) ∧
     (detect_change_kind cwd path = some (ChangeKind.Config, p) →
        create_new_site ops cwd od bu cf = .error e →
        dispatchChange cwd od bu cf b site ops path isFile =
          .panic site)) := by
  refine ⟨?_, ?_, ?_, ?_, ?_⟩
  · intro hk hres
    simp [dispatchChange, hk, hres, rebuild_done_handling]
  · intro hk hres
    simp [dispatchChange, hk, hres, rebuild_done_handling]
  · intro hk hfile hres
    simp [dispatchChange, hk, hfile, hres, rebuild_done_handling]
  · intro hk hres
    simp [dispatchChange, hk, hres, rebuild_done_handling]
  · intro hk hres
    simp [dispatchChange, hk, hres]

/-- C5: a Config change swaps in a new Site only after Site::new, load
and build have all succeeded, and the new site is then complete (loaded
and built, rooted at cwd with the given arguments); on any failure the
outcome is the panic with the old Site value untouched — never a
half-replaced state. -/
theorem config_rebuild_create_then_swap (cwd : RPath) (od bu cf : List Char)
    (b : Bool) (site : Site) (ops : CollabResults) (path : RPath)
    (isFile : Bool) (p : RPath)
    (hk : detect_change_kind cwd path = some (ChangeKind.Config, p)) :
    dispatchChange cwd od bu cf b site ops path isFile = .panic site ∨
    (ops.newRes = .ok () ∧ ops.loadRes = .ok () ∧ ops.buildRes = .ok () ∧
     dispatchChange cwd od bu cf b site ops path isFile =
       .cont [] []
         { base_path := cwd, config_file := cf, base_url := bu, output_path := od
           compile_sass := ops.configCompileSass, loaded := true, built := true }) := by
  cases hcs : create_new_site ops cwd od bu cf with
  | error e =>
    left
    simp [dispatchChange, hk, hcs]
  | ok s =>
    right
    obtain ⟨h1, h2, h3, hs⟩ := (create_new_site_ok_iff ops cwd od bu cf s).mp hcs
    refine ⟨h1, h2, h3, ?_⟩
    rw [← hs]
    simp [dispatchChange, hk, hcs]

theorem config_rebuild_create_then_swap_witness :
    dispatchChange rootA "public".toList "base".toList "config.toml".toList
        true siteA opsOk configPathA false = .panic siteA ∨
    (opsOk.newRes = .ok () ∧ opsOk.loadRes = .ok () ∧ opsOk.buildRes = .ok () ∧
     dispatchChange rootA "public".toList "base".toList "config.toml".toList
         true siteA opsOk configPathA false =
       .cont [] []
         { base_path := rootA, config_file := "config.toml".toList
           base_url := "base".toList, output_path := "public".toList
           compile_sass := opsOk.configCompileSass, loaded := true, built := true }) :=
  config_rebuild_create_then_swap rootA "public".toList "base".toList
    "config.toml".toList true siteA opsOk configPathA false
    ⟨true, ["config.toml".toList]⟩ (by decide)

/-- C6 counterexample: with `compile_sass` disabled, startup still
attempts to register a watch on `sass/` (the registration is
unconditional in the source); only the printed summary omits sass. -/
theorem sass_watch_attempted_without_flag :
    (∃ r ∈ (watchStartup "config.toml".toList true false).1,
       r.target = "sass/".toList) ∧
    "sass".toList ∉ (watchStartup "config.toml".toList true false).2 := by
  decide

/-- C6 (amended): static/ is registered for watching iff it exists on
disk; the sass/ registration is always attempted, regardless of the
`compile_sass` flag, with any failure tolerated silently (non-fatal);
the startup summary lists sass iff `compile_sass` is enabled. -/
theorem watch_startup_registrations (cf : List Char) (ex cs : Bool)
    (hcf : cf ≠ "static/".toList) :
    ((∃ r ∈ (watchStartup cf ex cs).1, r.target = "static/".toList) ↔ ex = true) ∧
    (∃ r ∈ (watchStartup cf ex cs).1,
       r.target = "sass/".toList ∧ r.fatalOnError = false) ∧
    ("sass".toList ∈ (watchStartup cf ex cs).2 ↔ cs = true) := by
  cases ex <;> cases cs <;>
    simp [watchStartup, watchRegistrations, watchersDisplay] <;>
    exact hcf

theorem watch_startup_registrations_witness :
    ((∃ r ∈ (watchStartup "config.toml".toList true true).1,
        r.target = "static/".toList) ↔ true = true) ∧
    (∃ r ∈ (watchStartup "config.toml".toList true true).1,
       r.target = "sass/".toList ∧ r.fatalOnError = false) ∧
    ("sass".toList ∈ (watchStartup "config.toml".toList true true).2 ↔
       true = true) :=
  watch_startup_registrations "config.toml".toList true true (by decide)

/-- C7: the websocket handler answers a frame whose text contains the
quoted handshake token `"hello"` with exactly one handshake reply naming
protocol http://livereload.com/protocols/official-7 and serverName
Gutenberg; any other frame gets no reply and an Ok result. -/
theorem ws_handshake_behaviour (sendRes : Except (List Char) Unit)
    (msg : List Char) :
    ((containsSub msg ("\"hello\"".toList) = true →
        wsHandler sendRes msg =
          ([{ command := "hello".toList
              protocols := ["http://livereload.com/protocols/official-7".toList]
              serverName := "Gutenberg".toList }], sendRes)) ∧
     (containsSub msg ("\"hello\"".toList) = false →
        wsHandler sendRes msg = ([], .ok ()))) := by
  constructor
  · intro h
    unfold wsHandler
    rw [h]
    rfl
  · intro h
    unfold wsHandler
    rw [h]
    rfl

/-- C9: the 404 middleware replaces a not-found response's body with the
custom not-found page content (when that page is readable) and forces
the content type to text/html; every response with another status passes
through with body and headers unchanged. -/
theorem not_found_middleware_behaviour (template : Option (List Char))
    (resp : HttpResponse) :
    ((∀ buf, resp.status = 404 → template = some buf →
        notFoundHandlerResponse template resp =
          .ok { resp with body := buf, contentType := some "text/html".toList }) ∧
     (resp.status ≠ 404 → notFoundHandlerResponse template resp = .ok resp)) := by
  constructor
  · intro buf h404 htmp
    simp [notFoundHandlerResponse, h404, htmp]
  · intro hne
    simp [notFoundHandlerResponse, hne]

/-- C10: the project root used by watch is the process current working
directory, independent of the output_dir and config_file arguments: the
Site is constructed rooted at cwd, the fixed watch targets are relative
paths (hence resolved against cwd by the OS), and the loop classifies a
change exactly as it classifies its cwd-relative form — cwd is the root
prefix classification strips. -/
theorem watch_root_is_cwd (cwd : RPath) :
    ((∀ ops od bu cf s, create_new_site ops cwd od bu cf = .ok s →
        s.base_path = cwd) ∧
     (∀ cf ex, ∀ r ∈ watchRegistrations cf ex, r.target ≠ cf →
        (parsePath r.target).absolute = false) ∧
     (∀ od bu cf b site ops rel isFile,
        cwd.absolute = true → rel.absolute = false →
        dispatchChange cwd od bu cf b site ops (cwd.push rel) isFile =
          dispatchChange cwd od bu cf b site ops rel isFile)) := by
  refine ⟨?_, ?_, ?_⟩
  · intro ops od bu cf s h
    obtain ⟨_, _, _, hs⟩ := (create_new_site_ok_iff ops cwd od bu cf s).mp h
    rw [hs]
  · intro cf ex r hr hne
    cases ex <;> simp [watchRegistrations] at hr
    · rcases hr with h | h | h | h
      · subst h; decide
      · subst h; decide
      · exact absurd (by rw [h]) hne
      · subst h; decide
    · rcases hr with h | h | h | h | h
      · subst h; decide
      · subst h; decide
      · exact absurd (by rw [h]) hne
      · subst h; decide
      · subst h; decide
  · intro od bu cf b site ops rel isFile h1 h2
    simp only [dispatchChange, detect_change_kind_push cwd rel h1 h2]

end Gutenberg
